import Mathlib

/-!
Shallow embedding of src/dmarc_analysis_tool.py.

A NormalizedRecord is one row dict produced by parse_dmarc_report
(keys "Source IP", "SPF Pass", "DKIM Pass", "Alignment", "Count", "Domain").
Counts are Python ints, modelled as Int; rates are Python floats computed
by exact arithmetic on the counts, modelled as rationals.
-/

structure NormalizedRecord where
  source_ip : String
  spf_pass : String
  dkim_pass : String
  alignment : String
  count : Int
  domain : String
  deriving DecidableEq, Repr

/-- The text of a count element, abstracted by what int() does to it:
numeric text carries the parsed integer, non-numeric text raises. -/
inductive CountText where
  | numeric (n : Int) : CountText
  | nonNumeric (s : String) : CountText
  deriving DecidableEq, Repr

/-- int() applied to the count text, line 18 of the source: none models the
ValueError raised on non-numeric text. -/
def CountText.toIntResult : CountText → Option Int
  | CountText.numeric n => some n
  | CountText.nonNumeric _ => none

/-- One raw (record) element of a DMARC XML document: each child element is
present with text content (some) or absent (none). -/
structure RawRecord where
  source_ip : Option String
  spf : Option String
  dkim : Option String
  disposition : Option String
  count : Option CountText
  header_from : Option String
  deriving DecidableEq, Repr

/-- An input file: either not well formed XML, or a list of raw records. -/
inductive XmlFile where
  | malformed : XmlFile
  | wellFormed : List RawRecord → XmlFile
  deriving DecidableEq, Repr

/-- Extraction of one record, lines 14-28 of the source: a missing
source_ip, spf, dkim, disposition or count element, or non-numeric count
text, raises (modelled as none); a missing header_from is replaced by
"Unknown". -/
def parseRecord (r : RawRecord) : Option NormalizedRecord := do
  let ip ← r.source_ip
  let spf ← r.spf
  let dkim ← r.dkim
  let disp ← r.disposition
  let ctext ← r.count
  let c ← ctext.toIntResult
  pure ⟨ip, spf, dkim, disp, c, r.header_from.getD "Unknown"⟩

/-- The record loop of parse_dmarc_report: the first failing record aborts
the whole file (the exception escapes the loop). -/
def parseRecords : List RawRecord → Option (List NormalizedRecord)
  | [] => some []
  | r :: rest => do
    let n ← parseRecord r
    let ns ← parseRecords rest
    pure (n :: ns)

/-- parse_dmarc_report, lines 6-32: any exception (malformed XML or a failing
record) is caught and the file yields the empty list. -/
def parse_dmarc_report : XmlFile → List NormalizedRecord
  | XmlFile.malformed => []
  | XmlFile.wellFormed recs =>
    match parseRecords recs with
    | some l => l
    | none => []

/-- The accumulation loop of main, lines 204-207: per-file results are
concatenated in file order. -/
def batch_parse (files : List XmlFile) : List NormalizedRecord :=
  (files.map parse_dmarc_report).flatten

/-- Line 36. -/
def total_emails (reports : List NormalizedRecord) : Int :=
  (reports.map (·.count)).sum

/-- Line 40. -/
def spf_dkim_pass (reports : List NormalizedRecord) : List NormalizedRecord :=
  reports.filter fun r => r.spf_pass == "pass" && r.dkim_pass == "pass"

/-- Line 41. -/
def passed_count (reports : List NormalizedRecord) : Int :=
  ((spf_dkim_pass reports).map (·.count)).sum

/-- Line 42. -/
def failed_count (reports : List NormalizedRecord) : Int :=
  total_emails reports - passed_count reports

/-- Line 44. -/
def unauthorized_sources (reports : List NormalizedRecord) : List NormalizedRecord :=
  reports.filter fun r => r.alignment != "pass"

/-- Line 45. -/
def unauthorized_count (reports : List NormalizedRecord) : Int :=
  ((unauthorized_sources reports).map (·.count)).sum

/-- Line 47. -/
def pass_rate (reports : List NormalizedRecord) : ℚ :=
  (passed_count reports : ℚ) / (total_emails reports : ℚ) * 100

/-- Line 48. -/
def fail_rate (reports : List NormalizedRecord) : ℚ :=
  100 - pass_rate reports

/-- Lines 50-56. -/
def recommendation (reports : List NormalizedRecord) : String :=
  if fail_rate reports < 5 ∧ unauthorized_count reports < 2 then
    "Recommend \x27reject\x27 policy."
  else if fail_rate reports < 15 then
    "Recommend \x27quarantine\x27 policy."
  else
    "Stay at \x27none\x27 policy and investigate further."

/-- Line 63: list(set(...)) over the domains of the unauthorized records,
modelled as the deduplicated list (set semantics is its membership). -/
def domains_with_failures (reports : List NormalizedRecord) : List String :=
  ((unauthorized_sources reports).map (·.domain)).dedup

/-- A value of the detailed_analysis dict, lines 58-65. -/
inductive AVal where
  | int (n : Int) : AVal
  | rat (q : ℚ) : AVal
  | strList (l : List String) : AVal
  | str (s : String) : AVal
  deriving DecidableEq, Repr

/-- The detailed_analysis dict of lines 58-65, as the association list of its
six literal keys. -/
def detailed_analysis (reports : List NormalizedRecord) : List (String × AVal) :=
  [("Total Emails", AVal.int (total_emails reports)),
   ("SPF/DKIM Pass Count", AVal.int (passed_count reports)),
   ("Unauthorized Email Count", AVal.int (unauthorized_count reports)),
   ("Fail Rate", AVal.rat (fail_rate reports)),
   ("Domains with Failures", AVal.strList (domains_with_failures reports)),
   ("Recommendation", AVal.str (recommendation reports))]

/-- analyze_data returns either the no-data string (line 38) or the dict. -/
inductive AnalysisResult where
  | noData (msg : String) : AnalysisResult
  | summary (fields : List (String × AVal)) : AnalysisResult
  deriving DecidableEq, Repr

/-- Lines 34-67. -/
def analyze_data (reports : List NormalizedRecord) : AnalysisResult :=
  if total_emails reports = 0 then
    AnalysisResult.noData "No data available for analysis."
  else
    AnalysisResult.summary (detailed_analysis reports)

/-- Line 72. -/
def viz_pass_count (reports : List NormalizedRecord) : Int :=
  ((reports.filter fun r => r.spf_pass == "pass" && r.dkim_pass == "pass").map (·.count)).sum

/-- Line 73. -/
def viz_total_count (reports : List NormalizedRecord) : Int :=
  (reports.map (·.count)).sum

/-- Lines 74-75. -/
def viz_unauthorized_count (reports : List NormalizedRecord) : Int :=
  ((reports.filter fun r => r.alignment != "pass").map (·.count)).sum

/-- Line 78. -/
def viz_failures_raw (reports : List NormalizedRecord) : Int :=
  viz_total_count reports - viz_pass_count reports - viz_unauthorized_count reports

/-- Line 79: max(0, failures). -/
def viz_failures (reports : List NormalizedRecord) : Int :=
  max 0 (viz_failures_raw reports)

/-- Line 103: the domains of the unauthorized records. -/
def viz_domains (reports : List NormalizedRecord) : List String :=
  (reports.filter fun r => r.alignment != "pass").map (·.domain)

/-- Line 104: the bar-chart count for one domain sums count over ALL reports
of that domain, with no disposition condition. -/
def domain_counts (reports : List NormalizedRecord) (d : String) : Int :=
  ((reports.filter fun r => r.domain == d).map (·.count)).sum

/-- Spec-side definition, from the words of §4.2/§6: the per-domain failure
count a consistent visualization would show, summing count only over the
records of that domain whose disposition is not "pass". -/
def specDomainFailCount (reports : List NormalizedRecord) (d : String) : Int :=
  ((reports.filter fun r => r.domain == d && r.alignment != "pass").map (·.count)).sum

example : total_emails [⟨"1.2.3.4", "pass", "pass", "pass", 20, "ex.com"⟩] = 20 := by decide
example : passed_count [⟨"1.2.3.4", "pass", "pass", "pass", 20, "ex.com"⟩] = 20 := by decide
example : fail_rate [⟨"1.2.3.4", "pass", "pass", "pass", 20, "ex.com"⟩] < 5 := by
  norm_num [fail_rate, pass_rate, passed_count, total_emails, spf_dkim_pass]
example : parse_dmarc_report (XmlFile.wellFormed
    [⟨some "1.1.1.1", some "pass", some "fail", some "none", some (CountText.numeric 7), none⟩]) =
    [⟨"1.1.1.1", "pass", "fail", "none", 7, "Unknown"⟩] := by decide
example : parse_dmarc_report (XmlFile.wellFormed
    [⟨some "1.1.1.1", some "pass", some "fail", some "none",
      some (CountText.nonNumeric "x7"), none⟩]) = [] := by decide

/-- Claim C1: the Policy Advisor (lines 50-56) recommends the reject policy
when fail_rate < 5 and unauthorized_count < 2; otherwise the quarantine
policy when fail_rate < 15; otherwise staying at none and investigating.
The conjunctive < 5 check is evaluated first, so an input satisfying both
conditions takes the reject branch. -/
theorem policy_recommendation_thresholds (reports : List NormalizedRecord) :
    (fail_rate reports < 5 ∧ unauthorized_count reports < 2 →
      recommendation reports = "Recommend \x27reject\x27 policy.") ∧
    (¬ (fail_rate reports < 5 ∧ unauthorized_count reports < 2) →
      fail_rate reports < 15 →
      recommendation reports = "Recommend \x27quarantine\x27 policy.") ∧
    (¬ (fail_rate reports < 5 ∧ unauthorized_count reports < 2) →
      ¬ fail_rate reports < 15 →
      recommendation reports = "Stay at \x27none\x27 policy and investigate further.") := by
  unfold recommendation
  refine ⟨fun h => if_pos h, fun h1 h2 => ?_, fun h1 h2 => ?_⟩
  · rw [if_neg h1, if_pos h2]
  · rw [if_neg h1, if_neg h2]

def w1rec : NormalizedRecord := ⟨"1.2.3.4", "pass", "pass", "pass", 20, "ex.com"⟩

/-- Witness for C1 at a single all-pass record: fail_rate 0, no unauthorized
mail, so the reject branch is taken. -/
theorem policy_recommendation_thresholds_witness :
    recommendation [w1rec] = "Recommend \x27reject\x27 policy." :=
  (policy_recommendation_thresholds [w1rec]).1
    ⟨by norm_num [fail_rate, pass_rate, passed_count, total_emails, spf_dkim_pass, w1rec],
     by decide⟩

/-- Claim C2: when the counts sum to zero (in particular when the list is
empty or every count is 0), analyze_data returns the no-data string of
line 38 and no numeric summary (so no rate is ever formed over a zero
denominator). -/
theorem zero_total_no_data (reports : List NormalizedRecord)
    (h : total_emails reports = 0 ∨ ∀ r ∈ reports, r.count = 0) :
    analyze_data reports = AnalysisResult.noData "No data available for analysis." := by
  have ht : total_emails reports = 0 := by
    rcases h with h | h
    · exact h
    · unfold total_emails
      refine List.sum_eq_zero fun x hx => ?_
      obtain ⟨r, hr, rfl⟩ := List.mem_map.mp hx
      exact h r hr
  unfold analyze_data
  rw [if_pos ht]

/-- Witness for C2 at the empty record list. -/
theorem zero_total_no_data_witness :
    analyze_data [] = AnalysisResult.noData "No data available for analysis." :=
  zero_total_no_data [] (Or.inl rfl)

theorem sum_map_filter_eq_sum_ite (p : NormalizedRecord → Bool)
    (l : List NormalizedRecord) :
    ((l.filter p).map (·.count)).sum = (l.map fun r => if p r then r.count else 0).sum := by
  induction l with
  | nil => rfl
  | cons h t ih =>
    by_cases hp : p h
    · simp [List.filter_cons, hp, ih]
    · simp [List.filter_cons, hp, ih]

/-- Claim C3: passed_count sums count over the records where both the SPF
and the DKIM result are "pass", unauthorized_count sums count over the
records whose disposition is not "pass"; a partial-pass record with
spf "pass", dkim "fail", count 10 and disposition "quarantine" contributes
0 to passed_count and its full 10 to unauthorized_count. -/
theorem passed_and_unauthorized_counts (reports : List NormalizedRecord) :
    passed_count reports =
      (reports.map fun r =>
        if r.spf_pass == "pass" && r.dkim_pass == "pass" then r.count else 0).sum ∧
    unauthorized_count reports =
      (reports.map fun r => if r.alignment != "pass" then r.count else 0).sum ∧
    (∀ rest : List NormalizedRecord, ∀ ip d : String,
      passed_count (⟨ip, "pass", "fail", "quarantine", 10, d⟩ :: rest) =
        passed_count rest) ∧
    (∀ rest : List NormalizedRecord, ∀ ip d : String,
      unauthorized_count (⟨ip, "pass", "fail", "quarantine", 10, d⟩ :: rest) =
        10 + unauthorized_count rest) := by
  refine ⟨sum_map_filter_eq_sum_ite _ _, sum_map_filter_eq_sum_ite _ _, ?_, ?_⟩
  · intro rest ip d
    unfold passed_count spf_dkim_pass
    simp [List.filter_cons]
  · intro rest ip d
    unfold unauthorized_count unauthorized_sources
    simp [List.filter_cons]

theorem parseRecords_eq_none_of_mem (recs : List RawRecord) (r : RawRecord)
    (hmem : r ∈ recs) (hr : parseRecord r = none) : parseRecords recs = none := by
  induction recs with
  | nil => cases hmem
  | cons h t ih =>
    rcases List.mem_cons.mp hmem with rfl | hm
    · simp [parseRecords, hr]
    · cases hh : parseRecord h with
      | none => simp [parseRecords, hh]
      | some n => simp [parseRecords, hh, ih hm]

/-- Claim C4: extraction is all-or-nothing per file: a malformed file, or any
record with a missing required element or non-numeric count, makes the whole
file contribute zero records, while the batch continues with the other
files; a missing header_from alone is not an error and yields the domain
"Unknown". -/
theorem per_file_all_or_nothing :
    (parse_dmarc_report XmlFile.malformed = []) ∧
    (∀ recs : List RawRecord, ∀ r : RawRecord, r ∈ recs → parseRecord r = none →
      parse_dmarc_report (XmlFile.wellFormed recs) = []) ∧
    (∀ raw : RawRecord,
      raw.source_ip = none ∨ raw.spf = none ∨ raw.dkim = none ∨
        raw.disposition = none ∨ raw.count = none →
      parseRecord raw = none) ∧
    (∀ raw : RawRecord, ∀ s : String,
      raw.count = some (CountText.nonNumeric s) → parseRecord raw = none) ∧
    (∀ f : XmlFile, ∀ fs : List XmlFile, parse_dmarc_report f = [] →
      batch_parse (f :: fs) = batch_parse fs) ∧
    (∀ ip spf dkim disp : String, ∀ n : Int,
      parseRecord ⟨some ip, some spf, some dkim, some disp,
          some (CountText.numeric n), none⟩ =
        some ⟨ip, spf, dkim, disp, n, "Unknown"⟩) := by
  refine ⟨rfl, ?_, ?_, ?_, ?_, ?_⟩
  · intro recs r hmem hr
    simp only [parse_dmarc_report]
    rw [parseRecords_eq_none_of_mem recs r hmem hr]
  · intro raw h
    obtain ⟨sip, sspf, sdkim, sdisp, scnt, shf⟩ := raw
    cases sip <;> cases sspf <;> cases sdkim <;> cases sdisp <;> cases scnt <;>
      simp_all [parseRecord]
  · intro raw s h
    obtain ⟨sip, sspf, sdkim, sdisp, scnt, shf⟩ := raw
    cases sip <;> cases sspf <;> cases sdkim <;> cases sdisp <;>
      simp_all [parseRecord, CountText.toIntResult]
  · intro f fs h
    unfold batch_parse
    simp [h]
  · intro ip spf dkim disp n
    simp [parseRecord, CountText.toIntResult, Option.getD]

def badRaw4 : RawRecord :=
  ⟨none, some "pass", some "pass", some "none", some (CountText.numeric 5), some "a.com"⟩

def goodRaw4 : RawRecord :=
  ⟨some "1.1.1.1", some "pass", some "pass", some "none", some (CountText.numeric 5), some "a.com"⟩

/-- Witness for C4: a file whose only record lacks source_ip parses to zero
records, and a malformed file at the head of a batch leaves the rest of the
batch unchanged. -/
theorem per_file_all_or_nothing_witness :
    parse_dmarc_report (XmlFile.wellFormed [badRaw4]) = [] ∧
    batch_parse [XmlFile.malformed, XmlFile.wellFormed [goodRaw4]] =
      batch_parse [XmlFile.wellFormed [goodRaw4]] :=
  ⟨per_file_all_or_nothing.2.1 [badRaw4] badRaw4 (List.Mem.head _)
      (per_file_all_or_nothing.2.2.1 badRaw4 (Or.inl rfl)),
   per_file_all_or_nothing.2.2.2.2.1 XmlFile.malformed [XmlFile.wellFormed [goodRaw4]]
      per_file_all_or_nothing.1⟩

/-- Claim C5: analyze_data is order-independent: two permuted record lists
give the same total, passed and unauthorized counts, the same fail_rate and
recommendation, and the same domains_with_failures membership. -/
theorem analysis_order_independent (l1 l2 : List NormalizedRecord)
    (h : l1.Perm l2) :
    total_emails l1 = total_emails l2 ∧
    passed_count l1 = passed_count l2 ∧
    unauthorized_count l1 = unauthorized_count l2 ∧
    fail_rate l1 = fail_rate l2 ∧
    (∀ d : String, d ∈ domains_with_failures l1 ↔ d ∈ domains_with_failures l2) ∧
    recommendation l1 = recommendation l2 := by
  have ht : total_emails l1 = total_emails l2 := by
    unfold total_emails
    exact (h.map (·.count)).sum_eq
  have hp : passed_count l1 = passed_count l2 := by
    unfold passed_count spf_dkim_pass
    exact ((h.filter _).map (·.count)).sum_eq
  have hu : unauthorized_count l1 = unauthorized_count l2 := by
    unfold unauthorized_count unauthorized_sources
    exact ((h.filter _).map (·.count)).sum_eq
  have hf : fail_rate l1 = fail_rate l2 := by
    unfold fail_rate pass_rate
    rw [ht, hp]
  have hd : ∀ d : String, d ∈ domains_with_failures l1 ↔ d ∈ domains_with_failures l2 := by
    intro d
    unfold domains_with_failures unauthorized_sources
    rw [List.mem_dedup, List.mem_dedup]
    exact ((h.filter _).map (·.domain)).mem_iff
  have hr : recommendation l1 = recommendation l2 := by
    simp only [recommendation, hf, hu]
  exact ⟨ht, hp, hu, hf, hd, hr⟩

def w5a : NormalizedRecord := ⟨"1.1.1.1", "pass", "pass", "pass", 6, "a.com"⟩

def w5b : NormalizedRecord := ⟨"2.2.2.2", "fail", "pass", "none", 2, "b.com"⟩

/-- Witness for C5: swapping a two-record list leaves the recommendation
unchanged. -/
theorem analysis_order_independent_witness :
    recommendation [w5a, w5b] = recommendation [w5b, w5a] :=
  (analysis_order_independent [w5a, w5b] [w5b, w5a]
    (List.Perm.swap w5b w5a [])).2.2.2.2.2

def c6pass : NormalizedRecord := ⟨"1.1.1.1", "pass", "pass", "pass", 5, "a.com"⟩

def c6fail : NormalizedRecord := ⟨"2.2.2.2", "fail", "fail", "none", 3, "a.com"⟩

/-- Claim C6 evaluated at a failing input: with one disposition-pass record
(count 5) and one unauthorized record (count 3) of the same domain, the bar
chart of line 104 shows 8 for that domain because it sums count over all
records of the domain, while the §4.2 classification rule (disposition not
"pass") gives 3 — the visualization does not reproduce the textual
classification. -/
theorem viz_domain_counts_divergence :
    "a.com" ∈ viz_domains [c6pass, c6fail] ∧
    domain_counts [c6pass, c6fail] "a.com" = 8 ∧
    specDomainFailCount [c6pass, c6fail] "a.com" = 3 ∧
    domain_counts [c6pass, c6fail] "a.com" ≠
      specDomainFailCount [c6pass, c6fail] "a.com" := by decide

def demoRec7 : NormalizedRecord := ⟨"3.3.3.3", "pass", "fail", "none", 4, "c.com"⟩

/-- Counterexample to claim C7: on a record list with positive total, the
dict built by analyze_data carries exactly the six keys of lines 58-65; no
key holds a pass rate or a failed count, so the returned summary does not
contain the pass_rate and failed_count fields the claim asserts. -/
theorem summary_fields_counterexample :
    0 < total_emails [demoRec7] ∧
    (detailed_analysis [demoRec7]).map Prod.fst =
      ["Total Emails", "SPF/DKIM Pass Count", "Unauthorized Email Count",
       "Fail Rate", "Domains with Failures", "Recommendation"] ∧
    "pass_rate" ∉ (detailed_analysis [demoRec7]).map Prod.fst ∧
    "Pass Rate" ∉ (detailed_analysis [demoRec7]).map Prod.fst ∧
    "failed_count" ∉ (detailed_analysis [demoRec7]).map Prod.fst ∧
    "Failed Count" ∉ (detailed_analysis [demoRec7]).map Prod.fst := by decide

/-- Claim C7 as amended: for a record list with positive total, analyze_data
returns the summary dict, whose Fail Rate entry equals
100 - passed_count / total_emails * 100; the pass rate and the failed count
(failed_count = total_emails - passed_count) are computed internally but are
not entries of the returned dict. -/
theorem summary_fail_rate_amended (reports : List NormalizedRecord)
    (h : 0 < total_emails reports) :
    analyze_data reports = AnalysisResult.summary (detailed_analysis reports) ∧
    ("Fail Rate",
        AVal.rat (100 - (passed_count reports : ℚ) / (total_emails reports : ℚ) * 100))
      ∈ detailed_analysis reports ∧
    failed_count reports = total_emails reports - passed_count reports ∧
    (∀ v : AVal, ("pass_rate", v) ∉ detailed_analysis reports) ∧
    (∀ v : AVal, ("failed_count", v) ∉ detailed_analysis reports) := by
  refine ⟨?_, ?_, rfl, ?_, ?_⟩
  · unfold analyze_data
    rw [if_neg (by omega)]
  · unfold detailed_analysis fail_rate pass_rate
    simp
  · intro v
    simp [detailed_analysis]
  · intro v
    simp [detailed_analysis]

/-- Witness for the amended C7 at a one-record list with total 4. -/
theorem summary_fail_rate_amended_witness :
    analyze_data [demoRec7] = AnalysisResult.summary (detailed_analysis [demoRec7]) ∧
    ("Fail Rate",
        AVal.rat (100 - (passed_count [demoRec7] : ℚ) / (total_emails [demoRec7] : ℚ) * 100))
      ∈ detailed_analysis [demoRec7] ∧
    failed_count [demoRec7] = total_emails [demoRec7] - passed_count [demoRec7] ∧
    (∀ v : AVal, ("pass_rate", v) ∉ detailed_analysis [demoRec7]) ∧
    (∀ v : AVal, ("failed_count", v) ∉ detailed_analysis [demoRec7]) :=
  summary_fail_rate_amended [demoRec7] (by decide)

/-- Claim C8: for a record list with positive total, the domains_with_failures
of line 63 is, by membership, exactly the set of domains of the records whose
disposition is not "pass"; no count condition gates membership, so a count-0
unauthorized record still contributes its domain. -/
theorem domains_with_failures_membership (reports : List NormalizedRecord)
    (_h : 0 < total_emails reports) :
    ∀ d : String, d ∈ domains_with_failures reports ↔
      ∃ r ∈ reports, r.alignment ≠ "pass" ∧ r.domain = d := by
  intro d
  unfold domains_with_failures unauthorized_sources
  rw [List.mem_dedup]
  simp only [List.mem_map, List.mem_filter, bne_iff_ne]
  constructor
  · rintro ⟨r, ⟨hrm, hne⟩, rfl⟩
    exact ⟨r, hrm, hne, rfl⟩
  · rintro ⟨r, hrm, hne, rfl⟩
    exact ⟨r, ⟨hrm, hne⟩, rfl⟩

def w8pos : NormalizedRecord := ⟨"8.8.8.8", "pass", "pass", "pass", 3, "b.com"⟩

def w8zero : NormalizedRecord := ⟨"7.7.7.7", "pass", "fail", "none", 0, "Unknown"⟩

/-- Witness for C8: a count-0 record with the default domain "Unknown" and a
non-pass disposition puts "Unknown" into domains_with_failures. -/
theorem domains_with_failures_membership_witness :
    "Unknown" ∈ domains_with_failures [w8pos, w8zero] :=
  (domains_with_failures_membership [w8pos, w8zero] (by decide) "Unknown").mpr
    ⟨w8zero, by decide, by decide, rfl⟩

/-- Claim C9: failed_count (line 42) is derived as total_emails minus
passed_count, never independently summed, so passed_count plus failed_count
equals total_emails. -/
theorem passed_failed_conservation (reports : List NormalizedRecord)
    (_h : 0 < total_emails reports) :
    failed_count reports = total_emails reports - passed_count reports ∧
    passed_count reports + failed_count reports = total_emails reports := by
  refine ⟨rfl, ?_⟩
  unfold failed_count
  ring

def w9rec : NormalizedRecord := ⟨"4.4.4.4", "pass", "pass", "none", 5, "e.com"⟩

/-- Witness for C9 at a one-record list with total 5. -/
theorem passed_failed_conservation_witness :
    failed_count [w9rec] = total_emails [w9rec] - passed_count [w9rec] ∧
    passed_count [w9rec] + failed_count [w9rec] = total_emails [w9rec] :=
  passed_failed_conservation [w9rec] (by decide)

def overlapRec : NormalizedRecord := ⟨"9.9.9.9", "pass", "pass", "quarantine", 1, "d.com"⟩

/-- Claim C10: the passed and unauthorized classifications overlap: a single
record passing SPF and DKIM with disposition "quarantine" and count 1 is
counted by both, so passed_count + unauthorized_count exceeds total_emails;
the residual failures value of line 78 is then negative and line 79 clamps
it to 0. -/
theorem pass_unauthorized_overlap_and_clamp :
    (0 : Int) ≤ overlapRec.count ∧
    passed_count [overlapRec] + unauthorized_count [overlapRec] >
      total_emails [overlapRec] ∧
    viz_failures_raw [overlapRec] < 0 ∧
    viz_failures [overlapRec] = 0 := by decide
